import Mathlib

/-!
Shallow embedding of the authentication/authorization core of the
demarthology-api repository (FastAPI + beanie backend).

The Python sources embedded here are:
  * `app/utils/jwt.py`              — `JWTUtils` token codec
  * `app/services/token_session_provider.py` — bearer-token session provider
  * `app/utils/jwt_token.py`        — `extract_token_from_header`
  * `app/use_cases/login_uc.py`     — `LoginUC.action`
  * `app/use_cases/register_uc.py`  — `RegisterUC.action`
  * `app/use_cases/forgot_password_uc.py` — `ForgotPasswordUC.action`
  * `app/use_cases/reset_password_uc.py`  — `ResetPasswordUC.action`
  * `app/utils/permissions.py` / `app/utils/authorize.py` — permission model
    and the authorization gate

Machine-level conventions of the embedding:
  * time is a `Nat` counting minutes; PyJWT's expiry check is modelled with an
    inclusive boundary (a token checked at its expiry instant is expired);
  * `fastapi.HTTPException` is the `HTTPEx` structure (status code + detail),
    and raising functions return `Except HTTPEx _`;
  * a JWT string is the `Token` inductive: either a payload signed with some
    secret, or a malformed string;
  * bcrypt hashing / verification (passlib, an external collaborator) is
    passed to the use cases as an explicit function argument.
-/

/-- A raised `fastapi.HTTPException`: status code and detail message. -/
structure HTTPEx where
  status_code : Nat
  detail : String
deriving Repr, DecidableEq

/-- A decoded JWT payload: the caller-supplied string claims plus the `exp`
expiry timestamp that `create_*_token` stores alongside them. -/
structure Payload where
  claims : List (String × String)
  exp : Nat
deriving Repr, DecidableEq

/-- A JWT string: either a payload signed with a given secret, or a string
that is not a well-formed token at all. -/
inductive Token where
  | signed (payload : Payload) (secret : String)
  | malformed (raw : String)
deriving Repr, DecidableEq

/-- Errors raised by `jwt.decode` of the PyJWT library. -/
inductive JwtError where
  | expiredSignature
  | invalidToken
deriving Repr, DecidableEq

/-- `jwt.decode(token, secret, algorithms=[...])`: signature check, then
expiry check (inclusive boundary), then the payload is returned. -/
def jwtDecode (secret : String) (tok : Token) (now : Nat) : Except JwtError Payload :=
  match tok with
  | .malformed _ => .error .invalidToken
  | .signed p s =>
      if s ≠ secret then .error .invalidToken
      else if p.exp ≤ now then .error .expiredSignature
      else .ok p

namespace JWTUtils

/-- `JWTUtils.SECRET_KEY` from `app/utils/jwt.py`. -/
def SECRET_KEY : String := "your-secret-key-change-in-production"

/-- `JWTUtils.ACCESS_TOKEN_EXPIRE_MINUTES`. -/
def ACCESS_TOKEN_EXPIRE_MINUTES : Nat := 30

/-- `JWTUtils.RESET_TOKEN_EXPIRE_MINUTES` ("Reset tokens expire faster"). -/
def RESET_TOKEN_EXPIRE_MINUTES : Nat := 15

/-- `JWTUtils.create_access_token(data)`: copies the caller's claims, adds
`exp = now + ACCESS_TOKEN_EXPIRE_MINUTES`, signs with the secret. -/
def create_access_token (data : List (String × String)) (now : Nat) : Token :=
  .signed ⟨data, now + ACCESS_TOKEN_EXPIRE_MINUTES⟩ SECRET_KEY

/-- `JWTUtils.decode_access_token(token)`: signature+expiry validation only;
expired → 401 "Token has expired", invalid → 401 "Invalid token". -/
def decode_access_token (tok : Token) (now : Nat) : Except HTTPEx Payload :=
  match jwtDecode SECRET_KEY tok now with
  | .ok payload => .ok payload
  | .error .expiredSignature => .error ⟨401, "Token has expired"⟩
  | .error .invalidToken => .error ⟨401, "Invalid token"⟩

/-- `JWTUtils.create_reset_token(email)`: claims `{email, type: "reset"}`,
`exp = now + RESET_TOKEN_EXPIRE_MINUTES`, signed with the same secret. -/
def create_reset_token (email : String) (now : Nat) : Token :=
  .signed ⟨[("email", email), ("type", "reset")], now + RESET_TOKEN_EXPIRE_MINUTES⟩ SECRET_KEY

/-- `JWTUtils.decode_reset_token(token)`: decodes, requires the claim
`type = "reset"` (else 400 "Invalid token type"), returns
`payload.get("email")` (an optional value, as in Python); expired →
400 "Reset token has expired", invalid → 400 "Invalid reset token". -/
def decode_reset_token (tok : Token) (now : Nat) : Except HTTPEx (Option String) :=
  match jwtDecode SECRET_KEY tok now with
  | .ok payload =>
      if payload.claims.lookup "type" ≠ some "reset" then
        .error ⟨400, "Invalid token type"⟩
      else
        .ok (payload.claims.lookup "email")
  | .error .expiredSignature => .error ⟨400, "Reset token has expired"⟩
  | .error .invalidToken => .error ⟨400, "Invalid reset token"⟩

end JWTUtils


/-- Split a character list at every character satisfying `p`, keeping empty
chunks, as Python's `str.split(" ")` keeps them. -/
def splitChars (p : Char → Bool) : List Char → List (List Char)
  | [] => [[]]
  | c :: rest =>
      let r := splitChars p rest
      if p c then [] :: r
      else
        match r with
        | [] => [[c]]
        | h :: t => (c :: h) :: t

/-- Python `s.split(" ")`: split at every single space, keeping empty chunks. -/
def pySplitSpace (s : String) : List String :=
  (splitChars (fun c => c = ' ') s.data).map String.mk

/-- Python `s.split()`: split on whitespace runs, dropping empty chunks. -/
def pySplitWhitespace (s : String) : List String :=
  ((splitChars Char.isWhitespace s.data).map String.mk).filter (· ≠ "")

/-- Python `s.startswith(pre)`. -/
def pyStartsWith (s pre : String) : Bool :=
  pre.data.isPrefixOf s.data

/-- Python `s.lower()` (ASCII case folding suffices for the scheme check). -/
def pyLower (s : String) : String :=
  ⟨s.data.map Char.toLower⟩

/-- Equality of `Except` results is decidable componentwise; used to evaluate
the embedded functions on concrete inputs. -/
instance {ε α : Type} [DecidableEq ε] [DecidableEq α] : DecidableEq (Except ε α)
  | .ok a, .ok b =>
      if h : a = b then .isTrue (by rw [h]) else .isFalse (by simp [h])
  | .ok _, .error _ => .isFalse (by simp)
  | .error _, .ok _ => .isFalse (by simp)
  | .error a, .error b =>
      if h : a = b then .isTrue (by rw [h]) else .isFalse (by simp [h])

/-- `TokenSessionProvider.get_session` from
`app/services/token_session_provider.py`.  The request is represented by its
`Authorization` header (`none` when the header is absent; Python's
`if not authorization` also treats the empty string as missing).  The call to
`JWTUtils.decode_access_token` is passed in as `decode`, the token codec
collaborator.  Steps: missing header → 401 "Authorization header missing";
header not starting with the literal prefix `"Bearer "` → 401
"Authorization header must start with 'Bearer '"; otherwise
`authorization.split(" ")[1]` is handed to the codec and its result is
returned unchanged. -/
def TokenSessionProvider.get_session (decode : String → Except HTTPEx Payload)
    (authorization : Option String) : Except HTTPEx Payload :=
  match authorization with
  | none => .error ⟨401, "Authorization header missing"⟩
  | some a =>
      if a = "" then .error ⟨401, "Authorization header missing"⟩
      else if ¬ pyStartsWith a "Bearer " then
        .error ⟨401, "Authorization header must start with 'Bearer '"⟩
      else
        decode ((pySplitSpace a).getD 1 "")

/-- `extract_token_from_header` from `app/utils/jwt_token.py`: splits the
header on whitespace (Python `str.split()` drops empty chunks), requires
exactly two parts with a case-insensitive `bearer` scheme, and returns the
second part; returns `none` otherwise.  (This helper follows the spec's
parsing rules but is not called by `TokenSessionProvider`.) -/
def extract_token_from_header (authorization_header : Option String) : Option String :=
  match authorization_header with
  | none => none
  | some h =>
      if h = "" then none
      else
        let parts := pySplitWhitespace h
        if parts.length ≠ 2 ∨ pyLower (parts.getD 0 "") ≠ "bearer" then none
        else some (parts.getD 1 "")


/-- A stored user document (`app/models/user.py` / the fields the embedded
code touches).  `role` is the role name string the permission checks compare
against (the tests construct users with string roles). -/
structure User where
  id : String
  email : String
  password : String
  first_name : String
  last_name : String
  dob : Nat
  role : String
deriving Repr, DecidableEq

/-- A target resource for ownership checks.  Python probes the attributes
with `hasattr`, so each owner-identifying field is optional. -/
structure Resource where
  user_id : Option String := none
  email : Option String := none
  owner_id : Option String := none
deriving Repr, DecidableEq

/-- The permission context of `app/utils/permission.py` /
`app/utils/authorize.py`: the (possibly absent) current user plus an
optional target resource. -/
structure Context where
  user : Option User := none
  resource : Option Resource := none
deriving Repr, DecidableEq

/-- `RolePermission.authorize` (`app/utils/permissions.py`): user present and
`user.role == required_role`. -/
def RolePermission.authorize (required_role : String) (context : Context) : Bool :=
  match context.user with
  | none => false
  | some user => user.role == required_role

/-- `AnyRolePermission.authorize`: user present and
`user.role in allowed_roles`. -/
def AnyRolePermission.authorize (allowed_roles : List String) (context : Context) : Bool :=
  match context.user with
  | none => false
  | some user => allowed_roles.contains user.role

/-- `AdminPermission.authorize`: user present and `user.role == "admin"`. -/
def AdminPermission.authorize (context : Context) : Bool :=
  match context.user with
  | none => false
  | some user => user.role == "admin"

/-- `UserPermission.authorize`: user present and
`user.role in ["user", "admin", "moderator"]`. -/
def UserPermission.authorize (context : Context) : Bool :=
  match context.user with
  | none => false
  | some user => ["user", "admin", "moderator"].contains user.role

/-- `SelfOrAdminPermission.authorize` (identical logic in
`app/utils/permissions.py` and `app/utils/authorize.py`): no user → false;
admin → true; no resource → true; otherwise the first present attribute in
the `hasattr` chain `user_id` / `email` / `owner_id` is compared against the
user (`elif` chain: later attributes are not consulted once an earlier one
is present); no attribute present → false. -/
def SelfOrAdminPermission.authorize (context : Context) : Bool :=
  match context.user with
  | none => false
  | some user =>
      if user.role == "admin" then true
      else
        match context.resource with
        | none => true
        | some resource =>
            match resource.user_id with
            | some uid => uid == user.id
            | none =>
                match resource.email with
                | some e => e == user.email
                | none =>
                    match resource.owner_id with
                    | some oid => oid == user.id
                    | none => false

/-- `CanEditRole.authorize` (`app/utils/authorize.py`): user present and
`user.role == "admin"`. -/
def CanEditRole.authorize (context : Context) : Bool :=
  match context.user with
  | none => false
  | some user => user.role == "admin"

/-- The permission variants as a tagged union, for quantifying over "every
permission" handed to the authorization gate. -/
inductive Perm where
  | rolePermission (required_role : String)
  | anyRolePermission (allowed_roles : List String)
  | adminPermission
  | userPermission
  | selfOrAdminPermission
  | canEditRole
deriving Repr, DecidableEq

/-- Polymorphic dispatch of `permission.authorize(context)` over the
variants. -/
def Perm.authorize : Perm → Context → Bool
  | .rolePermission r => RolePermission.authorize r
  | .anyRolePermission rs => AnyRolePermission.authorize rs
  | .adminPermission => AdminPermission.authorize
  | .userPermission => UserPermission.authorize
  | .selfOrAdminPermission => SelfOrAdminPermission.authorize
  | .canEditRole => CanEditRole.authorize

/-- The authorization gate `authorize(permission, context)` of
`app/utils/authorize.py`: raises 403 "Insufficient permissions" when the
permission denies, returns `()` otherwise. -/
def authorize (permission : Perm) (context : Context) : Except HTTPEx Unit :=
  if ¬ permission.authorize context then
    .error ⟨403, "Insufficient permissions"⟩
  else
    .ok ()

/-- A JSON-like value in a response dict built by the use cases: a string, a
boolean, an issued token, or a flat sub-dict of strings. -/
inductive JVal where
  | s (v : String)
  | b (v : Bool)
  | tok (t : Token)
  | d (fields : List (String × String))
deriving Repr, DecidableEq

/-- `LoginRequest` from `app/schemas/login_request.py`: fields `email`,
`password`, `remember_me`. -/
structure LoginRequest where
  email : String
  password : String
  remember_me : Bool := false
deriving Repr, DecidableEq

/-- Python attribute lookup `data.<name>` on a `LoginRequest` object: the
schema declares exactly `email`, `password` and `remember_me`, so any other
name raises `AttributeError` (modelled as `none`). -/
def LoginRequest.getattr (r : LoginRequest) (name : String) : Option String :=
  if name == "email" then some r.email
  else if name == "password" then some r.password
  else none

/-- `setting.JWT_SECRET_KEY` from `app/configs/setting.py`. -/
def settingJWTSecretKey : String := "your-secret-key-here-change-in-production"

/-- `setting.JWT_ACCESS_TOKEN_EXPIRE_MINUTES` from `app/configs/setting.py`. -/
def settingAccessTokenExpireMinutes : Nat := 30

/-- Modelled from the spec: `app.utils.jwt_utils.create_access_token`
(imported by `app/use_cases/login_uc.py`) has no source file under the
repository; per the spec's Token Codec contract, `issueAccessToken` embeds an
expiry timestamp `now + TTL` alongside the caller-supplied claims and signs
with the static secret. -/
def jwtUtilsCreateAccessToken (data : List (String × String)) (expires_delta : Nat)
    (now : Nat) : Token :=
  .signed ⟨data, now + expires_delta⟩ settingJWTSecretKey

/-- The dict built by the success path of `LoginUC.action`
(`app/use_cases/login_uc.py` lines 46-61): `access_token` with claims
`{"sub": str(user.id)}`, `token_type "bearer"`, and a `user` sub-dict of
`id`, `email`, `first_name`, `last_name`. -/
def loginSuccessDict (user : User) (now : Nat) : List (String × JVal) :=
  [("access_token",
      .tok (jwtUtilsCreateAccessToken [("sub", user.id)] settingAccessTokenExpireMinutes now)),
   ("token_type", .s "bearer"),
   ("user", .d [("id", user.id), ("email", user.email),
                ("first_name", user.first_name), ("last_name", user.last_name)])]

/-- `LoginUC.action` from `app/use_cases/login_uc.py`.  The database is the
list of stored users and `verify` is the bcrypt collaborator
(`password_utils.verify_password`).  The code evaluates `data.username`
inside a `try` block whose `except Exception` raises 401
"Invalid credentials"; since the imported `LoginRequest` schema declares
`email` (not `username`), the attribute access raises and is swallowed
there.  The remaining branches follow the source: user lookup by email
(absent → 401 "Invalid credentials"), password verification (mismatch →
401 "Invalid credentials"), then the success dict of `loginSuccessDict`. -/
def LoginUC.action (verify : String → String → Bool) (db : List User)
    (data : LoginRequest) (now : Nat) : Except HTTPEx (List (String × JVal)) :=
  match data.getattr "username" with
  | none => .error ⟨401, "Invalid credentials"⟩
  | some username =>
      match db.find? (fun u => u.email == username) with
      | none => .error ⟨401, "Invalid credentials"⟩
      | some user =>
          if ¬ verify data.password user.password then
            .error ⟨401, "Invalid credentials"⟩
          else
            .ok (loginSuccessDict user now)

/-- `Role` from `app/models/role.py`. -/
structure Role where
  name : String
  description : Option String := none
  is_active : Bool := true
deriving Repr, DecidableEq

/-- The persistent state the register/reset use cases touch: the `users` and
`roles` collections. -/
structure Store where
  users : List User
  roles : List Role
deriving Repr, DecidableEq

/-- `UserRepository.find_by_email` / `UserService.find_by_email`. -/
def find_by_email (st : Store) (email : String) : Option User :=
  st.users.find? (fun u => u.email == email)

/-- `UserService.check_user_exist`: the user found by email is not `None`. -/
def check_user_exist (st : Store) (email : String) : Bool :=
  (find_by_email st email).isSome

/-- `RoleService.get_role_by_name` via `RoleRepository.find_by_name`. -/
def get_role_by_name (st : Store) (name : String) : Option Role :=
  st.roles.find? (fun r => r.name == name)

/-- `RoleService.get_or_create_default_role`: fetch the "user" role, creating
`Role(name="user", description="Default user role")` when absent. -/
def get_or_create_default_role (st : Store) : Role × Store :=
  match get_role_by_name st "user" with
  | some r => (r, st)
  | none =>
      let r : Role := ⟨"user", some "Default user role", true⟩
      (r, { st with roles := st.roles ++ [r] })

/-- `RegisterRequest` from `app/schemas/register_request.py` (the `role`
field defaults to `"user"`). -/
structure RegisterRequest where
  email : String
  password : String
  first_name : String
  last_name : String
  dob : Nat
  role : String := "user"
deriving Repr, DecidableEq

/-- `UserInfo` from `app/schemas/login_response.py`. -/
structure UserInfo where
  email : String
  first_name : String
  last_name : String
  role : Option String := some "user"
deriving Repr, DecidableEq

/-- `RegisterResponse` from `app/schemas/register_response.py`: `success`,
`message`, `user`, a required `access_token` with no default, and
`token_type` defaulting to `"bearer"`. -/
structure RegisterResponse where
  success : Bool
  message : String
  user : UserInfo
  access_token : String
  token_type : String := "bearer"
deriving Repr, DecidableEq

/-- A failure escaping `RegisterUC.action`: a raised `HTTPException` or a
pydantic `ValidationError` (field name and message). -/
inductive RegisterError where
  | http (e : HTTPEx)
  | validationError (field msg : String)
deriving Repr, DecidableEq

/-- pydantic construction `RegisterResponse(...)`: the schema marks
`access_token` as required with no default, so omitting it raises a
`ValidationError`; `token_type` falls back to its default. -/
def mkRegisterResponse (success : Bool) (message : String) (user : UserInfo)
    (access_token : Option String) (token_type : Option String) :
    Except RegisterError RegisterResponse :=
  match access_token with
  | none => .error (.validationError "access_token" "Field required")
  | some t => .ok ⟨success, message, user, t, token_type.getD "bearer"⟩

/-- `RegisterUC.action` from `app/use_cases/register_uc.py`, with `hash` the
bcrypt collaborator (`app/utils/password.hash_password`).  Existing email →
409 Conflict; otherwise the requested role is resolved (falling back to the
default "user" role, creating it if needed), the password is hashed, the new
user is persisted (the database-assigned identifier is modelled as the next
index), and the response is constructed from `success`, `message` and the
`UserInfo` — and from nothing else, so the pydantic validation of
`RegisterResponse` decides the final outcome.  The updated store is returned
alongside, the error branches leaving it untouched except for work done
before the raise. -/
def RegisterUC.action (hash : String → String) (st : Store) (data : RegisterRequest) :
    Except RegisterError RegisterResponse × Store :=
  if check_user_exist st data.email then
    (.error (.http ⟨409, "User with this email already exists"⟩), st)
  else
    let roleSt :=
      match get_role_by_name st data.role with
      | some r => (r, st)
      | none => get_or_create_default_role st
    let role := roleSt.1
    let st1 := roleSt.2
    let hashed_password := hash data.password
    let new_user : User :=
      ⟨toString st1.users.length, data.email, hashed_password,
       data.first_name, data.last_name, data.dob, role.name⟩
    let st2 := { st1 with users := st1.users ++ [new_user] }
    let role_name := some new_user.role
    let user_info : UserInfo :=
      ⟨new_user.email, new_user.first_name, new_user.last_name, role_name⟩
    (mkRegisterResponse true "Registration successful" user_info none none, st2)

/-- `ForgotPasswordResponse` from `app/schemas/auth_responses.py`. -/
structure ForgotPasswordResponse where
  success : Bool
  message : String
deriving Repr, DecidableEq

/-- `ForgotPasswordUC.action` from `app/use_cases/forgot_password_uc.py`.
Returns the response together with the observable side effects: the reset
token issued (only inside the `if user_exists` branch) and the list of
notifications dispatched to the notification collaborator — the code
dispatches none (the send is a TODO; only a debug print of the token
happens), so that list is empty on every path. -/
def ForgotPasswordUC.action (st : Store) (email : String) (now : Nat) :
    ForgotPasswordResponse × Option Token × List (String × Token) :=
  let user_exists := check_user_exist st email
  if user_exists then
    let reset_token := JWTUtils.create_reset_token email now
    (⟨true, "If the email exists, a password reset link has been sent"⟩,
     some reset_token, [])
  else
    (⟨true, "If the email exists, a password reset link has been sent"⟩,
     none, [])

/-- `ResetPasswordRequest` from `app/schemas/reset_password_request.py`. -/
structure ResetPasswordRequest where
  token : Token
  new_password : String
  confirm_new_password : String
deriving Repr, DecidableEq

/-- `ResetPasswordResponse` from `app/schemas/auth_responses.py`. -/
structure ResetPasswordResponse where
  success : Bool
  message : String
deriving Repr, DecidableEq

/-- `ResetPasswordUC.action` from `app/use_cases/reset_password_uc.py`, with
`hash` the bcrypt collaborator (`PasswordUtils.hash_password`).  The store is
returned on every path so that "no user record is modified" is expressible:
decode failures propagate (`HTTPException`s re-raised by the
`except HTTPException` clause), a falsy decoded email (Python `if not email`:
`None` or `""`) → 400 "Invalid reset token", an unknown email → 404
"User not found", and only then is the found user's `password` field
replaced with the new hash and the user saved. -/
def ResetPasswordUC.action (hash : String → String) (st : Store)
    (data : ResetPasswordRequest) (now : Nat) :
    Except HTTPEx ResetPasswordResponse × Store :=
  match JWTUtils.decode_reset_token data.token now with
  | .error e => (.error e, st)
  | .ok emailOpt =>
      match emailOpt with
      | none => (.error ⟨400, "Invalid reset token"⟩, st)
      | some email =>
          if email = "" then (.error ⟨400, "Invalid reset token"⟩, st)
          else
            match find_by_email st email with
            | none => (.error ⟨404, "User not found"⟩, st)
            | some user =>
                let hashed_password := hash data.new_password
                let st' := { st with
                  users := st.users.map (fun u =>
                    if u.id == user.id then { u with password := hashed_password } else u) }
                (.ok ⟨true, "Password has been reset successfully"⟩, st')

/-! ## Theorems -/

/-- C1 (counterexample): a validly signed reset token, unexpired at minute 5
(it expires at 15) and accepted by `decode_reset_token`, is ALSO returned by
`decode_access_token` as a valid claims map — the access-side direction of
the type discriminator is not enforced. -/
theorem c1_reset_accepted_as_access_counterexample :
    JWTUtils.decode_reset_token (JWTUtils.create_reset_token "a@b.com" 0) 5 =
      .ok (some "a@b.com") ∧
    JWTUtils.decode_access_token (JWTUtils.create_reset_token "a@b.com" 0) 5 =
      .ok ⟨[("email", "a@b.com"), ("type", "reset")], 15⟩ := by
  constructor <;> rfl

/-- C1 (amended): `decode_reset_token` rejects every validly signed,
unexpired token whose claims lack or mismatch `type = "reset"` with the 400
"Invalid token type" failure; in the other direction `decode_access_token`
performs no type check, so a validly signed, unexpired reset token decodes
successfully into its claims map. -/
theorem c1_token_type_discrimination :
    (∀ (p : Payload) (now : Nat), now < p.exp →
        p.claims.lookup "type" ≠ some "reset" →
        JWTUtils.decode_reset_token (.signed p JWTUtils.SECRET_KEY) now =
          .error ⟨400, "Invalid token type"⟩) ∧
    (∀ (email : String) (issued now : Nat),
        now < issued + JWTUtils.RESET_TOKEN_EXPIRE_MINUTES →
        JWTUtils.decode_access_token (JWTUtils.create_reset_token email issued) now =
          .ok ⟨[("email", email), ("type", "reset")],
               issued + JWTUtils.RESET_TOKEN_EXPIRE_MINUTES⟩) := by
  constructor
  · intro p now hnow hty
    unfold JWTUtils.decode_reset_token jwtDecode
    simp [Nat.not_le.mpr hnow, hty]
  · intro email issued now hnow
    unfold JWTUtils.decode_access_token JWTUtils.create_reset_token jwtDecode
    simp [Nat.not_le.mpr hnow]

/-- C1 (witness): both directions of the amended statement at concrete
inputs: a signed token without a `type` claim is rejected by the reset
decoder, and a concrete reset token is accepted by the access decoder. -/
theorem c1_token_type_discrimination_witness :
    JWTUtils.decode_reset_token (.signed ⟨[("email", "x@y.z")], 10⟩ JWTUtils.SECRET_KEY) 3 =
      .error ⟨400, "Invalid token type"⟩ ∧
    JWTUtils.decode_access_token (JWTUtils.create_reset_token "w@q.r" 2) 4 =
      .ok ⟨[("email", "w@q.r"), ("type", "reset")], 17⟩ :=
  ⟨c1_token_type_discrimination.1 ⟨[("email", "x@y.z")], 10⟩ 3 (by decide) (by decide),
   c1_token_type_discrimination.2 "w@q.r" 2 4 (by decide)⟩

/-- C2 (counterexample): with a codec that accepts any token, the session
provider rejects the lowercase scheme `bearer x` as malformed (the claim says
the scheme is case-insensitive) and accepts the three-segment header
`Bearer a b`, passing `a` to the codec (the claim says segment count ≠ 2 is
malformed).  The unused helper `extract_token_from_header` shows the claimed
parsing for contrast. -/
theorem c2_bearer_format_counterexample :
    TokenSessionProvider.get_session (fun s => .ok ⟨[("tok", s)], 99⟩) (some "bearer x") =
      .error ⟨401, "Authorization header must start with 'Bearer '"⟩ ∧
    TokenSessionProvider.get_session (fun s => .ok ⟨[("tok", s)], 99⟩) (some "Bearer a b") =
      .ok ⟨[("tok", "a")], 99⟩ ∧
    extract_token_from_header (some "bearer x") = some "x" ∧
    extract_token_from_header (some "Bearer a b") = none := by
  refine ⟨by decide, by decide, by decide, by decide⟩

/-- C2 (amended): the provider fails 401 "Authorization header missing" on an
absent or empty header; fails 401 "Authorization header must start with
'Bearer '" unless the header starts with that case-sensitive prefix; and
otherwise passes the second space-separated segment (without checking that
exactly two segments exist) to the token codec, returning the codec's result
unchanged. -/
theorem c2_get_session_behavior (decode : String → Except HTTPEx Payload) :
    TokenSessionProvider.get_session decode none =
      .error ⟨401, "Authorization header missing"⟩ ∧
    TokenSessionProvider.get_session decode (some "") =
      .error ⟨401, "Authorization header missing"⟩ ∧
    (∀ a : String, a ≠ "" → pyStartsWith a "Bearer " = false →
        TokenSessionProvider.get_session decode (some a) =
          .error ⟨401, "Authorization header must start with 'Bearer '"⟩) ∧
    (∀ a : String, a ≠ "" → pyStartsWith a "Bearer " = true →
        TokenSessionProvider.get_session decode (some a) =
          decode ((pySplitSpace a).getD 1 "")) := by
  refine ⟨rfl, rfl, ?_, ?_⟩
  · intro a ha hpre
    unfold TokenSessionProvider.get_session
    simp [ha, hpre]
  · intro a ha hpre
    unfold TokenSessionProvider.get_session
    simp [ha, hpre]

/-- C2 (witness): the amended behavior at concrete headers: a wrong-scheme
header is rejected as malformed, and a well-formed bearer header hands the
token segment to the codec. -/
theorem c2_get_session_behavior_witness :
    TokenSessionProvider.get_session (fun s => .ok ⟨[("tok", s)], 7⟩) (some "InvalidFormat token") =
      .error ⟨401, "Authorization header must start with 'Bearer '"⟩ ∧
    TokenSessionProvider.get_session (fun s => .ok ⟨[("tok", s)], 7⟩) (some "Bearer abc") =
      .ok ⟨[("tok", "abc")], 7⟩ :=
  ⟨(c2_get_session_behavior (fun s => .ok ⟨[("tok", s)], 7⟩)).2.2.1
      "InvalidFormat token" (by decide) (by decide),
   by
    have h := (c2_get_session_behavior (fun s => .ok ⟨[("tok", s)], 7⟩)).2.2.2
        "Bearer abc" (by decide) (by decide)
    simpa using h⟩

/-- C3 (code bug, evaluated at the failing input): the spec's successful-login
scenario — a stored user with the matching email and correct password (under
an idealized bcrypt `verify`) — does not succeed: `LoginUC.action` reads
`data.username` though its `LoginRequest` schema declares `email`, so the
swallowed `AttributeError` yields 401 "Invalid credentials" for every
request.  Moreover the dict its success path would build (lines 46-61)
carries no `success`, `message` or `user.role` entries — against the route's
`LoginResponse` model and the repository's own tests — and its access token's
claims are exactly `{"sub": user.id}`, containing no email claim. -/
theorem c3_login_success_shape_code_bug :
    LoginUC.action (fun p h => h == "hash:" ++ p)
        [⟨"u1", "a@b.com", "hash:P@ssw0rd1", "Ann", "Baker", 0, "user"⟩]
        ⟨"a@b.com", "P@ssw0rd1", false⟩ 0 =
      .error ⟨401, "Invalid credentials"⟩ ∧
    (loginSuccessDict ⟨"u1", "a@b.com", "hash:P@ssw0rd1", "Ann", "Baker", 0, "user"⟩ 0).lookup
        "success" = none ∧
    (loginSuccessDict ⟨"u1", "a@b.com", "hash:P@ssw0rd1", "Ann", "Baker", 0, "user"⟩ 0).lookup
        "message" = none ∧
    (loginSuccessDict ⟨"u1", "a@b.com", "hash:P@ssw0rd1", "Ann", "Baker", 0, "user"⟩ 0).lookup
        "user" = some (.d [("id", "u1"), ("email", "a@b.com"),
                           ("first_name", "Ann"), ("last_name", "Baker")]) ∧
    (loginSuccessDict ⟨"u1", "a@b.com", "hash:P@ssw0rd1", "Ann", "Baker", 0, "user"⟩ 0).lookup
        "access_token" =
      some (.tok (.signed ⟨[("sub", "u1")], 30⟩ settingJWTSecretKey)) := by
  refine ⟨by decide, by decide, by decide, by decide, by decide⟩

/-- C4 (code bug, evaluated at the failing input): registering a fresh email
takes the conflict check, resolves the default role, hashes and persists the
new user — and then fails with the pydantic validation error for the
schema-required `access_token` field, because the use case never issues a
token and constructs `RegisterResponse` from `success`, `message` and `user`
alone.  The duplicate-email branch does return the claimed 409 Conflict. -/
theorem c4_register_token_code_bug :
    RegisterUC.action (fun p => "hash:" ++ p)
        ⟨[], [⟨"user", some "Default user role", true⟩]⟩
        ⟨"new@example.com", "Password123!", "John", "Doe", 0, "user"⟩ =
      (.error (.validationError "access_token" "Field required"),
       ⟨[⟨"0", "new@example.com", "hash:Password123!", "John", "Doe", 0, "user"⟩],
        [⟨"user", some "Default user role", true⟩]⟩) ∧
    RegisterUC.action (fun p => "hash:" ++ p)
        ⟨[⟨"0", "new@example.com", "hash:Password123!", "John", "Doe", 0, "user"⟩],
         [⟨"user", some "Default user role", true⟩]⟩
        ⟨"new@example.com", "Password123!", "John", "Doe", 0, "user"⟩ =
      (.error (.http ⟨409, "User with this email already exists"⟩),
       ⟨[⟨"0", "new@example.com", "hash:Password123!", "John", "Doe", 0, "user"⟩],
        [⟨"user", some "Default user role", true⟩]⟩) := by
  refine ⟨by decide, by decide⟩

/-- C5: login anti-enumeration — a request whose email matches no stored
user and a request matching a stored user whose password fails verification
produce the very same failure: status 401, detail "Invalid credentials". -/
theorem c5_login_anti_enumeration (verify : String → String → Bool) (db : List User)
    (r1 r2 : LoginRequest) (now : Nat) (u : User)
    (h1 : db.find? (fun x => x.email == r1.email) = none)
    (h2 : db.find? (fun x => x.email == r2.email) = some u)
    (h3 : verify r2.password u.password = false) :
    LoginUC.action verify db r1 now = .error ⟨401, "Invalid credentials"⟩ ∧
    LoginUC.action verify db r2 now = .error ⟨401, "Invalid credentials"⟩ :=
  ⟨rfl, rfl⟩

/-- C5 (witness): the anti-enumeration equality at a concrete store and
concrete requests (unknown email vs. wrong password). -/
theorem c5_login_anti_enumeration_witness :
    LoginUC.action (fun p h => h == "hash:" ++ p)
        [⟨"u1", "a@b.com", "hash:P@ssw0rd1", "Ann", "Baker", 0, "user"⟩]
        ⟨"ghost@nowhere.com", "whatever", false⟩ 3 =
      .error ⟨401, "Invalid credentials"⟩ ∧
    LoginUC.action (fun p h => h == "hash:" ++ p)
        [⟨"u1", "a@b.com", "hash:P@ssw0rd1", "Ann", "Baker", 0, "user"⟩]
        ⟨"a@b.com", "wrongpass", false⟩ 3 =
      .error ⟨401, "Invalid credentials"⟩ :=
  c5_login_anti_enumeration (fun p h => h == "hash:" ++ p)
    [⟨"u1", "a@b.com", "hash:P@ssw0rd1", "Ann", "Baker", 0, "user"⟩]
    ⟨"ghost@nowhere.com", "whatever", false⟩ ⟨"a@b.com", "wrongpass", false⟩ 3
    ⟨"u1", "a@b.com", "hash:P@ssw0rd1", "Ann", "Baker", 0, "user"⟩
    (by decide) (by decide) (by decide)

/-- C6: `SelfOrAdminPermission.authorize` for a present user: an admin is
always allowed; a non-admin is allowed when no resource is given; with a
resource, exactly the first present field of the priority chain `user_id`,
`email`, `owner_id` is compared against the user (in particular a present
non-matching `user_id` denies even when the email would match); with none of
the three fields present the result is false. -/
theorem c6_self_or_admin_priority (u : User) (res : Resource) (ores : Option Resource) :
    (u.role = "admin" → SelfOrAdminPermission.authorize ⟨some u, ores⟩ = true) ∧
    (u.role ≠ "admin" → SelfOrAdminPermission.authorize ⟨some u, none⟩ = true) ∧
    (u.role ≠ "admin" → ∀ uid : String, res.user_id = some uid →
        SelfOrAdminPermission.authorize ⟨some u, some res⟩ = (uid == u.id)) ∧
    (u.role ≠ "admin" → res.user_id = none → ∀ e : String, res.email = some e →
        SelfOrAdminPermission.authorize ⟨some u, some res⟩ = (e == u.email)) ∧
    (u.role ≠ "admin" → res.user_id = none → res.email = none →
        ∀ oid : String, res.owner_id = some oid →
        SelfOrAdminPermission.authorize ⟨some u, some res⟩ = (oid == u.id)) ∧
    (u.role ≠ "admin" → res.user_id = none → res.email = none → res.owner_id = none →
        SelfOrAdminPermission.authorize ⟨some u, some res⟩ = false) := by
  unfold SelfOrAdminPermission.authorize
  refine ⟨?_, ?_, ?_, ?_, ?_, ?_⟩
  · intro h; simp [h]
  · intro h; simp [h]
  · intro h uid huid; simp [h, huid]
  · intro h huid e he; simp [h, huid, he]
  · intro h huid he oid hoid; simp [h, huid, he, hoid]
  · intro h huid he hoid; simp [h, huid, he, hoid]

/-- C6 (witness): the priority order at a concrete context — a non-admin user
facing a resource whose `user_id` does not match while its `email` does is
denied: the present `user_id` wins over the matching `email`. -/
theorem c6_self_or_admin_priority_witness :
    SelfOrAdminPermission.authorize
      ⟨some ⟨"u1", "a@b.com", "pw", "Ann", "Baker", 0, "user"⟩,
       some ⟨some "other", some "a@b.com", none⟩⟩ = false := by
  have h := (c6_self_or_admin_priority ⟨"u1", "a@b.com", "pw", "Ann", "Baker", 0, "user"⟩
      ⟨some "other", some "a@b.com", none⟩ none).2.2.1 (by decide) "other" rfl
  simpa using h

/-- C7: fail-closed — every permission variant evaluated on a context whose
user is absent returns false (the embedded checks are total functions into
`Bool`, so no exception can be raised). -/
theorem c7_permissions_fail_closed (required_role : String) (allowed_roles : List String)
    (resource : Option Resource) :
    RolePermission.authorize required_role ⟨none, resource⟩ = false ∧
    AnyRolePermission.authorize allowed_roles ⟨none, resource⟩ = false ∧
    AdminPermission.authorize ⟨none, resource⟩ = false ∧
    UserPermission.authorize ⟨none, resource⟩ = false ∧
    SelfOrAdminPermission.authorize ⟨none, resource⟩ = false ∧
    CanEditRole.authorize ⟨none, resource⟩ = false :=
  ⟨rfl, rfl, rfl, rfl, rfl, rfl⟩

/-- C8: the authorization gate raises exactly the 403 failure with detail
"Insufficient permissions" when the permission denies the context, and
returns unit (no exception) when it allows it — for every permission variant
and every context. -/
theorem c8_authorization_gate (p : Perm) (ctx : Context) :
    (authorize p ctx = .error ⟨403, "Insufficient permissions"⟩ ↔ p.authorize ctx = false) ∧
    (authorize p ctx = .ok () ↔ p.authorize ctx = true) := by
  unfold authorize
  by_cases h : p.authorize ctx = true
  · simp [h]
  · have h' : p.authorize ctx = false := by simpa using h
    simp [h']

/-- C9: forgot-password anti-enumeration — for every store and every
requested email the response is the same fixed success message; a reset
token is issued exactly when a user with that email exists; and the list of
dispatched notifications is empty on every path (in particular for an
unknown email). -/
theorem c9_forgot_password_anti_enumeration (st : Store) (email : String) (now : Nat) :
    (ForgotPasswordUC.action st email now).1 =
      ⟨true, "If the email exists, a password reset link has been sent"⟩ ∧
    ((ForgotPasswordUC.action st email now).2.1.isSome ↔ check_user_exist st email = true) ∧
    (ForgotPasswordUC.action st email now).2.2 = [] := by
  unfold ForgotPasswordUC.action
  by_cases h : check_user_exist st email <;> simp [h]

/-- C10: reset-password atomicity — a decode failure propagates with the
store untouched; a falsy decoded email (absent or empty) yields 400 with the
store untouched; an unknown email yields 404 "User not found" with the store
untouched; and on success the only mutation is replacing the `password`
field of the users whose id matches the found user. -/
theorem c10_reset_password_atomicity (hash : String → String) (st : Store)
    (data : ResetPasswordRequest) (now : Nat) :
    (∀ e : HTTPEx, JWTUtils.decode_reset_token data.token now = .error e →
        ResetPasswordUC.action hash st data now = (.error e, st)) ∧
    (∀ emailOpt : Option String, JWTUtils.decode_reset_token data.token now = .ok emailOpt →
        emailOpt = none ∨ emailOpt = some "" →
        ResetPasswordUC.action hash st data now = (.error ⟨400, "Invalid reset token"⟩, st)) ∧
    (∀ email : String, JWTUtils.decode_reset_token data.token now = .ok (some email) →
        email ≠ "" → find_by_email st email = none →
        ResetPasswordUC.action hash st data now = (.error ⟨404, "User not found"⟩, st)) ∧
    (∀ (email : String) (user : User),
        JWTUtils.decode_reset_token data.token now = .ok (some email) →
        email ≠ "" → find_by_email st email = some user →
        ResetPasswordUC.action hash st data now =
          (.ok ⟨true, "Password has been reset successfully"⟩,
           { st with users := st.users.map (fun u =>
               if u.id == user.id then { u with password := hash data.new_password }
               else u) })) := by
  refine ⟨?_, ?_, ?_, ?_⟩
  · intro e he
    unfold ResetPasswordUC.action
    simp [he]
  · intro emailOpt hok hfalsy
    unfold ResetPasswordUC.action
    rcases hfalsy with h | h <;> simp [hok, h]
  · intro email hok hne hfind
    unfold ResetPasswordUC.action
    simp [hok, hne, hfind]
  · intro email user hok hne hfind
    unfold ResetPasswordUC.action
    simp [hok, hne, hfind]

/-- C10 (witness): a concrete successful reset — a freshly issued reset token
for a stored user replaces exactly that user's password hash — and a concrete
failing decode (wrong token type) that leaves the store untouched. -/
theorem c10_reset_password_atomicity_witness :
    ResetPasswordUC.action (fun p => "hash:" ++ p)
        ⟨[⟨"u1", "a@b.com", "hash:old", "Ann", "Baker", 0, "user"⟩,
          ⟨"u2", "c@d.com", "hash:keep", "Cid", "Dorn", 0, "user"⟩], []⟩
        ⟨JWTUtils.create_reset_token "a@b.com" 0, "NewP@ss1", "NewP@ss1"⟩ 1 =
      (.ok ⟨true, "Password has been reset successfully"⟩,
       ⟨[⟨"u1", "a@b.com", "hash:NewP@ss1", "Ann", "Baker", 0, "user"⟩,
         ⟨"u2", "c@d.com", "hash:keep", "Cid", "Dorn", 0, "user"⟩], []⟩) ∧
    ResetPasswordUC.action (fun p => "hash:" ++ p)
        ⟨[⟨"u1", "a@b.com", "hash:old", "Ann", "Baker", 0, "user"⟩], []⟩
        ⟨.signed ⟨[("email", "a@b.com")], 10⟩ JWTUtils.SECRET_KEY, "NewP@ss1", "NewP@ss1"⟩ 1 =
      (.error ⟨400, "Invalid token type"⟩,
       ⟨[⟨"u1", "a@b.com", "hash:old", "Ann", "Baker", 0, "user"⟩], []⟩) := by
  constructor
  · have h := (c10_reset_password_atomicity (fun p => "hash:" ++ p)
        ⟨[⟨"u1", "a@b.com", "hash:old", "Ann", "Baker", 0, "user"⟩,
          ⟨"u2", "c@d.com", "hash:keep", "Cid", "Dorn", 0, "user"⟩], []⟩
        ⟨JWTUtils.create_reset_token "a@b.com" 0, "NewP@ss1", "NewP@ss1"⟩ 1).2.2.2
        "a@b.com" ⟨"u1", "a@b.com", "hash:old", "Ann", "Baker", 0, "user"⟩
        (by decide) (by decide) (by decide)
    simpa using h
  · have h := (c10_reset_password_atomicity (fun p => "hash:" ++ p)
        ⟨[⟨"u1", "a@b.com", "hash:old", "Ann", "Baker", 0, "user"⟩], []⟩
        ⟨.signed ⟨[("email", "a@b.com")], 10⟩ JWTUtils.SECRET_KEY, "NewP@ss1", "NewP@ss1"⟩ 1).1
        ⟨400, "Invalid token type"⟩ (by decide)
    simpa using h
